import Mathlib

/-!
Verification of the route-optimizer repository (`route_optimizer` package and
its monolithic variant `route_optimizer.py`) against its natural-language
specification.  The Python sources are shallowly embedded: pure functions
become Lean functions, fallible code returns `Except PyExc`, file-backed
cache state becomes an explicit `Store` value threaded through the client,
and the external HTTP provider becomes an explicit `ProviderResponse`
argument.  Library calls of the Python runtime (JSON serialization,
`hashlib.md5`, `datetime.isoformat`) are modelled by concrete executable
Lean functions, documented at their definitions.
-/

set_option maxHeartbeats 1000000
set_option maxRecDepth 8000

/-- Python exception values relevant to this program.  Each constructor
models one of the Python exception types the embedded code can raise:
`ValueError` (carrying its message), `TypeError`, `KeyError`,
`json.JSONDecodeError` (a `ValueError` subclass, kept separate because the
cache code names it explicitly), `IndexError`, and `ZeroDivisionError`. -/
inductive PyExc : Type where
  | valueError (msg : String)
  | typeError
  | keyError
  | jsonDecodeError
  | indexError
  | zeroDivisionError
deriving DecidableEq, Repr

/-- JSON values, as produced by Python's `json.load` / stored by
`json.dump`: null, booleans, (integer) numbers, strings, arrays and
objects.  Numbers are modelled as integers; the program only ever stores
integer distances/durations and integer-indexed waypoint orders. -/
inductive Json : Type where
  | null
  | bool (b : Bool)
  | num (n : Int)
  | str (s : String)
  | arr (elems : List Json)
  | obj (fields : List (String × Json))

mutual

/-- Decidable equality for `Json` (structural, matching Python `==` on the
corresponding values). -/
def Json.beq : Json → Json → Bool
  | .null, .null => true
  | .bool a, .bool b => a == b
  | .num a, .num b => a == b
  | .str a, .str b => a == b
  | .arr a, .arr b => Json.beqList a b
  | .obj a, .obj b => Json.beqFields a b
  | _, _ => false

/-- Element-wise `Json.beq` on arrays. -/
def Json.beqList : List Json → List Json → Bool
  | [], [] => true
  | a :: as, b :: bs => Json.beq a b && Json.beqList as bs
  | _, _ => false

/-- Field-wise `Json.beq` on object field lists. -/
def Json.beqFields : List (String × Json) → List (String × Json) → Bool
  | [], [] => true
  | (k1, v1) :: as, (k2, v2) :: bs => k1 == k2 && Json.beq v1 v2 && Json.beqFields as bs
  | _, _ => false

end

mutual

theorem Json.beq_eq : ∀ a b : Json, Json.beq a b = true → a = b
  | .null, .null, _ => rfl
  | .bool a, .bool b, h => by simp [Json.beq] at h; simp [h]
  | .num a, .num b, h => by simp [Json.beq] at h; simp [h]
  | .str a, .str b, h => by simp [Json.beq] at h; simp [h]
  | .arr a, .arr b, h => by
      simp only [Json.beq] at h
      exact congrArg Json.arr (Json.beqList_eq a b h)
  | .obj a, .obj b, h => by
      simp only [Json.beq] at h
      exact congrArg Json.obj (Json.beqFields_eq a b h)

theorem Json.beqList_eq : ∀ a b : List Json, Json.beqList a b = true → a = b
  | [], [], _ => rfl
  | a :: as, b :: bs, h => by
      simp only [Json.beqList, Bool.and_eq_true] at h
      rw [Json.beq_eq a b h.1, Json.beqList_eq as bs h.2]

theorem Json.beqFields_eq : ∀ a b : List (String × Json), Json.beqFields a b = true → a = b
  | [], [], _ => rfl
  | (k1, v1) :: as, (k2, v2) :: bs, h => by
      simp only [Json.beqFields, Bool.and_eq_true, beq_iff_eq] at h
      rw [h.1.1, Json.beq_eq v1 v2 h.1.2, Json.beqFields_eq as bs h.2]

end

mutual

theorem Json.beq_refl : ∀ a : Json, Json.beq a a = true
  | .null => rfl
  | .bool a => by simp [Json.beq]
  | .num a => by simp [Json.beq]
  | .str a => by simp [Json.beq]
  | .arr a => by simp only [Json.beq]; exact Json.beqList_refl a
  | .obj a => by simp only [Json.beq]; exact Json.beqFields_refl a

theorem Json.beqList_refl : ∀ a : List Json, Json.beqList a a = true
  | [] => rfl
  | a :: as => by
      simp only [Json.beqList, Bool.and_eq_true]
      exact ⟨Json.beq_refl a, Json.beqList_refl as⟩

theorem Json.beqFields_refl : ∀ a : List (String × Json), Json.beqFields a a = true
  | [] => rfl
  | (k, v) :: as => by
      simp only [Json.beqFields, Bool.and_eq_true, beq_self_eq_true, true_and]
      exact ⟨Json.beq_refl v, Json.beqFields_refl as⟩

end

instance : DecidableEq Json := fun a b =>
  if h : Json.beq a b = true then
    isTrue (Json.beq_eq a b h)
  else
    isFalse (fun he => h (he ▸ Json.beq_refl a))

/-- The content of one cache file: either text that fails to parse as JSON
(`invalid`, making `json.load` raise `json.JSONDecodeError`) or a parsed
JSON value. -/
inductive CacheFile : Type where
  | invalid
  | valid (j : Json)
deriving DecidableEq

/-- The file-backed cache directory, as a map from cache key to the file
content stored at `<key>.json` (`none` when no such file exists). -/
def Store : Type := String → Option CacheFile

/-- The empty cache directory. -/
def emptyStore : Store := fun _ => none

/-- Writing (or deleting, with `none`) the file at one cache key. -/
def updateStore (s : Store) (key : String) (v : Option CacheFile) : Store :=
  fun k => if k = key then v else s k

/-- The decimal digit (or, for the JSON string escaper below, lowercase hex
digit) character for a value below 16; values 15 and above map to `f`. -/
def hexDig (n : Nat) : Char :=
  match n with
  | 0 => '0' | 1 => '1' | 2 => '2' | 3 => '3' | 4 => '4'
  | 5 => '5' | 6 => '6' | 7 => '7' | 8 => '8' | 9 => '9'
  | 10 => 'a' | 11 => 'b' | 12 => 'c' | 13 => 'd' | 14 => 'e'
  | _ => 'f'

/-- Most-significant-first decimal digits of a natural number. -/
def natDigits (n : Nat) : List Char :=
  if _h : n < 10 then [hexDig n]
  else natDigits (n / 10) ++ [hexDig (n % 10)]
decreasing_by exact Nat.div_lt_self (by omega) (by omega)

/-- Value of one decimal digit character, `none` for non-digits. -/
def digitVal (c : Char) : Option Nat :=
  if '0' ≤ c ∧ c ≤ '9' then some (c.toNat - 48) else none

/-- Left fold over decimal digit characters; fails on the first non-digit. -/
def parseDigits : List Char → Nat → Option Nat
  | [], acc => some acc
  | c :: rest, acc =>
      match digitVal c with
      | some d => parseDigits rest (acc * 10 + d)
      | none => none

/-- Modelled from the Python standard library: `datetime.isoformat`.
Timestamps are modelled as natural-number time values (seconds); the
ISO-8601 text written into a cache file is modelled as the decimal
rendering of that value. -/
def isoRender (t : Nat) : String :=
  String.mk (natDigits t)

/-- Modelled from the Python standard library: `datetime.fromisoformat`.
Parses the decimal rendering produced by `isoRender` back to a time value;
any string that is not a nonempty all-digit string fails to parse (in
Python, `fromisoformat` raises `ValueError` on such input). -/
def isoParse (s : String) : Option Nat :=
  match s.data with
  | [] => none
  | l => parseDigits l 0

theorem parseDigits_append (l1 l2 : List Char) (acc : Nat) :
    parseDigits (l1 ++ l2) acc =
      match parseDigits l1 acc with
      | some m => parseDigits l2 m
      | none => none := by
  induction l1 generalizing acc with
  | nil => simp [parseDigits]
  | cons c rest ih =>
      simp only [List.cons_append, parseDigits]
      cases digitVal c with
      | some d => exact ih (acc * 10 + d)
      | none => rfl

theorem digitVal_hexDig (n : Nat) (h : n < 10) : digitVal (hexDig n) = some n := by
  interval_cases n <;> decide

theorem parseDigits_natDigits (n : Nat) :
    ∀ acc, parseDigits (natDigits n) acc = some (acc * 10 ^ (natDigits n).length + n) := by
  induction n using Nat.strong_induction_on with
  | _ n ih =>
      intro acc
      by_cases h : n < 10
      · rw [natDigits, dif_pos h]
        simp [parseDigits, digitVal_hexDig n h]
      · rw [natDigits, dif_neg h]
        rw [parseDigits_append]
        rw [ih (n / 10) (Nat.div_lt_self (by omega) (by omega)) acc]
        have hd : n % 10 < 10 := Nat.mod_lt _ (by omega)
        simp only [parseDigits, digitVal_hexDig _ hd, List.length_append,
          List.length_singleton]
        congr 1
        have : 10 * (n / 10) + n % 10 = n := Nat.div_add_mod n 10
        rw [pow_succ]
        ring_nf
        omega

theorem natDigits_ne_nil (n : Nat) : natDigits n ≠ [] := by
  by_cases h : n < 10
  · rw [natDigits, dif_pos h]; simp
  · rw [natDigits, dif_neg h]; simp

/-- The modelled timestamp rendering round-trips through the modelled
timestamp parser. -/
theorem isoParse_isoRender (t : Nat) : isoParse (isoRender t) = some t := by
  unfold isoParse isoRender
  simp only [String.data]
  have hne := natDigits_ne_nil t
  cases hd : natDigits t with
  | nil => exact absurd hd hne
  | cons c rest =>
      rw [← hd]
      have := parseDigits_natDigits t 0
      simp only [Nat.zero_mul, Nat.zero_add] at this
      simpa [hd] using this

/-- The four lowercase hex digits of a value below `0x10000`,
most-significant first. -/
def hex4 (n : Nat) : List Char :=
  [hexDig (n / 4096 % 16), hexDig (n / 256 % 16), hexDig (n / 16 % 16), hexDig (n % 16)]

/-- Modelled from the Python standard library: the escaping `json.dumps`
(with its default `ensure_ascii=True`) applies to one character of a JSON
string: `\"` and `\\` for quote and backslash, the two-character short
escapes for backspace, tab, newline, form feed and carriage return,
printable ASCII characters unchanged, and `\uXXXX` (a surrogate pair for
characters beyond the basic multilingual plane) for everything else. -/
def escChar (c : Char) : List Char :=
  if c = '\"' then ['\\', '\"']
  else if c = '\\' then ['\\', '\\']
  else if c = '\x08' then ['\\', 'b']
  else if c = '\x09' then ['\\', 't']
  else if c = '\x0a' then ['\\', 'n']
  else if c = '\x0c' then ['\\', 'f']
  else if c = '\x0d' then ['\\', 'r']
  else if 0x20 ≤ c.toNat ∧ c.toNat ≤ 0x7e then [c]
  else if c.toNat < 0x10000 then '\\' :: 'u' :: hex4 c.toNat
  else
    '\\' :: 'u' :: hex4 (0xd800 + (c.toNat - 0x10000) / 0x400) ++
      ('\\' :: 'u' :: hex4 (0xdc00 + (c.toNat - 0x10000) % 0x400))

/-- JSON string-body escaping, character by character. -/
def esc : List Char → List Char
  | [] => []
  | c :: rest => escChar c ++ esc rest

/-- Value of one lowercase hex digit character. -/
def hexVal (c : Char) : Option Nat :=
  if '0' ≤ c ∧ c ≤ '9' then some (c.toNat - 48)
  else if 'a' ≤ c ∧ c ≤ 'f' then some (c.toNat - 87)
  else none

/-- Value of four hex digit characters, most-significant first. -/
def hex4Val (a b c d : Char) : Option Nat := do
  let va ← hexVal a
  let vb ← hexVal b
  let vc ← hexVal c
  let vd ← hexVal d
  pure (va * 4096 + vb * 256 + vc * 16 + vd)

/-- Decoder for a two-character escape produced by `escChar`. -/
def escDecode2 (a b : Char) : Option Char :=
  if a = '\\' then
    if b = '\"' then some '\"'
    else if b = '\\' then some '\\'
    else if b = 'b' then some '\x08'
    else if b = 't' then some '\x09'
    else if b = 'n' then some '\x0a'
    else if b = 'f' then some '\x0c'
    else if b = 'r' then some '\x0d'
    else none
  else none

/-- Decoder for a six-character `\uXXXX` escape produced by `escChar`. -/
def escDecode6 (a b c d e f : Char) : Option Char :=
  if a = '\\' ∧ b = 'u' then (hex4Val c d e f).map Char.ofNat else none

/-- Decoder for a twelve-character surrogate-pair escape produced by
`escChar`. -/
def escDecode12 (a b c d e f g h i j k l : Char) : Option Char :=
  if a = '\\' ∧ b = 'u' ∧ g = '\\' ∧ h = 'u' then do
    let hi ← hex4Val c d e f
    let lo ← hex4Val i j k l
    pure (Char.ofNat ((hi - 0xd800) * 0x400 + (lo - 0xdc00) + 0x10000))
  else none

/-- Decoder for the output of `escChar`, used to show `escChar` is
injective. -/
def escDecode (l : List Char) : Option Char :=
  match l with
  | [c] => some c
  | [a, b] => escDecode2 a b
  | [a, b, c, d, e, f] => escDecode6 a b c d e f
  | [a, b, c, d, e, f, g, h, i, j, k, m] => escDecode12 a b c d e f g h i j k m
  | _ => none

theorem char_valid_nat (c : Char) :
    c.toNat < 0xd800 ∨ (0xdfff < c.toNat ∧ c.toNat < 0x110000) := by
  have h := c.valid
  unfold UInt32.isValidChar Nat.isValidChar at h
  exact h

theorem char_eq_of_toNat_eq {a b : Char} (h : a.toNat = b.toNat) : a = b := by
  rw [← Char.ofNat_toNat a, ← Char.ofNat_toNat b, h]

theorem hexVal_hexDig (n : Nat) (h : n < 16) : hexVal (hexDig n) = some n := by
  interval_cases n <;> decide

theorem hex4Val_hex4 (n : Nat) (h : n < 0x10000) :
    hex4Val (hexDig (n / 4096 % 16)) (hexDig (n / 256 % 16))
      (hexDig (n / 16 % 16)) (hexDig (n % 16)) = some n := by
  rw [hex4Val]
  rw [hexVal_hexDig _ (Nat.mod_lt _ (by omega))]
  rw [hexVal_hexDig _ (Nat.mod_lt _ (by omega))]
  rw [hexVal_hexDig _ (Nat.mod_lt _ (by omega))]
  rw [hexVal_hexDig _ (Nat.mod_lt _ (by omega))]
  simp only [Option.bind_eq_bind, Option.some_bind, Option.pure_def]
  congr 1
  omega

theorem escDecode_escChar (c : Char) : escDecode (escChar c) = some c := by
  unfold escChar
  split_ifs with h1 h2 h3 h4 h5 h6 h7 h8 h9
  · rw [h1]; rfl
  · rw [h2]; rfl
  · rw [h3]; rfl
  · rw [h4]; rfl
  · rw [h5]; rfl
  · rw [h6]; rfl
  · rw [h7]; rfl
  · rfl
  · simp only [hex4, escDecode, escDecode6, hex4Val_hex4 c.toNat h9]
    simp only [and_self, if_true]
    show some (Char.ofNat c.toNat) = some c
    rw [Char.ofNat_toNat]
  · have hv := char_valid_nat c
    have hlt : c.toNat < 0x110000 := by omega
    simp only [hex4, List.cons_append, List.nil_append, escDecode, escDecode12]
    simp only [and_self, if_true]
    rw [hex4Val_hex4 _ (by omega), hex4Val_hex4 _ (by omega)]
    show some (Char.ofNat ((0xd800 + (c.toNat - 0x10000) / 0x400 - 0xd800) * 0x400 +
      (0xdc00 + (c.toNat - 0x10000) % 0x400 - 0xdc00) + 0x10000)) = some c
    have harith : (0xd800 + (c.toNat - 0x10000) / 0x400 - 0xd800) * 0x400 +
        (0xdc00 + (c.toNat - 0x10000) % 0x400 - 0xdc00) + 0x10000 = c.toNat := by
      omega
    rw [harith, Char.ofNat_toNat]

theorem escChar_inj {c1 c2 : Char} (h : escChar c1 = escChar c2) : c1 = c2 := by
  have h1 := escDecode_escChar c1
  have h2 := escDecode_escChar c2
  rw [h, h2] at h1
  exact (Option.some.injEq _ _ ▸ h1).symm

/-- The length of the escape standing at the head of an escaped character
stream, read off from its first characters. -/
def escWidth (l : List Char) : Nat :=
  match l with
  | a :: b :: d1 :: d2 :: _ =>
      if a = '\\' then
        if b = 'u' then
          if d1 = 'd' ∧ (d2 = '8' ∨ d2 = '9' ∨ d2 = 'a' ∨ d2 = 'b') then 12 else 6
        else 2
      else 1
  | a :: _ :: _ => if a = '\\' then 2 else 1
  | _ => 1

theorem hexDig_eq_d_iff (n : Nat) (h : n < 16) : hexDig n = 'd' ↔ n = 13 := by
  interval_cases n <;> decide

theorem hexDig_surr_iff (n : Nat) (h : n < 16) :
    (hexDig n = '8' ∨ hexDig n = '9' ∨ hexDig n = 'a' ∨ hexDig n = 'b') ↔
      (n = 8 ∨ n = 9 ∨ n = 10 ∨ n = 11) := by
  interval_cases n <;> decide

theorem bmp_not_surrogate_prefix (v : Nat) (hv : v < 0x10000)
    (hvalid : v < 0xd800 ∨ 0xdfff < v) :
    ¬(hexDig (v / 4096 % 16) = 'd' ∧
      (hexDig (v / 256 % 16) = '8' ∨ hexDig (v / 256 % 16) = '9' ∨
        hexDig (v / 256 % 16) = 'a' ∨ hexDig (v / 256 % 16) = 'b')) := by
  rintro ⟨hd1, hd2⟩
  rw [hexDig_eq_d_iff _ (by omega)] at hd1
  rw [hexDig_surr_iff _ (by omega)] at hd2
  omega

theorem surrogate_hi_prefix (hi : Nat) (h1 : 0xd800 ≤ hi) (h2 : hi ≤ 0xdbff) :
    hexDig (hi / 4096 % 16) = 'd' ∧
      (hexDig (hi / 256 % 16) = '8' ∨ hexDig (hi / 256 % 16) = '9' ∨
        hexDig (hi / 256 % 16) = 'a' ∨ hexDig (hi / 256 % 16) = 'b') := by
  constructor
  · rw [hexDig_eq_d_iff _ (by omega)]; omega
  · rw [hexDig_surr_iff _ (by omega)]; omega

theorem escWidth_escChar (c : Char) (t : List Char) :
    escWidth (escChar c ++ t) = (escChar c).length := by
  unfold escChar
  split_ifs with h1 h2 h3 h4 h5 h6 h7 h8 h9
  · rcases t with _ | ⟨x, _ | ⟨y, t⟩⟩ <;> simp [escWidth]
  · rcases t with _ | ⟨x, _ | ⟨y, t⟩⟩ <;> simp [escWidth]
  · rcases t with _ | ⟨x, _ | ⟨y, t⟩⟩ <;> simp [escWidth]
  · rcases t with _ | ⟨x, _ | ⟨y, t⟩⟩ <;> simp [escWidth]
  · rcases t with _ | ⟨x, _ | ⟨y, t⟩⟩ <;> simp [escWidth]
  · rcases t with _ | ⟨x, _ | ⟨y, t⟩⟩ <;> simp [escWidth]
  · rcases t with _ | ⟨x, _ | ⟨y, t⟩⟩ <;> simp [escWidth]
  · rcases t with _ | ⟨x, _ | ⟨y, _ | ⟨z, t⟩⟩⟩ <;> simp [escWidth, h2]
  · have hvalid := char_valid_nat c
    have hn := bmp_not_surrogate_prefix c.toNat h9 (by omega)
    simp [hex4, escWidth, hn]
  · have hvalid := char_valid_nat c
    have hge : 0x10000 ≤ c.toNat := by omega
    have hs := surrogate_hi_prefix (0xd800 + (c.toNat - 0x10000) / 0x400)
      (by omega) (by omega)
    simp [hex4, escWidth, hs]

theorem escChar_append_inj {c1 c2 : Char} {t1 t2 : List Char}
    (h : escChar c1 ++ t1 = escChar c2 ++ t2) : c1 = c2 ∧ t1 = t2 := by
  have hw : (escChar c1).length = (escChar c2).length := by
    rw [← escWidth_escChar c1 t1, ← escWidth_escChar c2 t2, h]
  obtain ⟨he, ht⟩ := List.append_inj h hw
  exact ⟨escChar_inj he, ht⟩

theorem escChar_append_ne_quote (c : Char) (t s : List Char) :
    escChar c ++ t ≠ '\"' :: s := by
  unfold escChar
  split_ifs with h1 h2 h3 h4 h5 h6 h7 h8 h9 <;>
    first
      | (intro hc; simp only [List.cons_append, List.cons.injEq] at hc; exact absurd hc.1 (by decide))
      | (intro hc; simp only [List.singleton_append, List.cons.injEq] at hc; exact absurd hc.1 h1)

theorem esc_quote_inj :
    ∀ (a : List Char) {b r1 r2 : List Char},
      esc a ++ '\"' :: r1 = esc b ++ '\"' :: r2 → a = b ∧ r1 = r2 := by
  intro a
  induction a with
  | nil =>
      intro b r1 r2 h
      cases b with
      | nil =>
          simp only [esc, List.nil_append, List.cons.injEq] at h
          exact ⟨rfl, h.2⟩
      | cons c bs =>
          exfalso
          simp only [esc, List.nil_append, List.append_assoc] at h
          exact escChar_append_ne_quote c (esc bs ++ '\"' :: r2) r1 h.symm
  | cons c as ih =>
      intro b r1 r2 h
      cases b with
      | nil =>
          exfalso
          simp only [esc, List.nil_append, List.append_assoc] at h
          exact escChar_append_ne_quote c (esc as ++ '\"' :: r1) r2 h
      | cons c2 bs =>
          simp only [esc, List.append_assoc] at h
          obtain ⟨hc, ht⟩ := escChar_append_inj h
          obtain ⟨hab, hr⟩ := ih ht
          exact ⟨by rw [hc, hab], hr⟩

/-- Modelled from the Python standard library: a JSON string literal as
rendered by `json.dumps` — the escaped character data wrapped in double
quotes. -/
def encodeStr (s : String) : List Char :=
  '\"' :: esc s.data ++ ['\"']

theorem encodeStr_append_inj {a b : String} {r1 r2 : List Char}
    (h : encodeStr a ++ r1 = encodeStr b ++ r2) : a = b ∧ r1 = r2 := by
  unfold encodeStr at h
  simp only [List.cons_append, List.append_assoc, List.singleton_append,
    List.cons.injEq, true_and] at h
  obtain ⟨hd, hr⟩ := esc_quote_inj a.data h
  refine ⟨?_, hr⟩
  cases a; cases b
  exact congrArg String.mk hd

/-- One `key: value` item of a serialized JSON object, as `json.dumps`
renders it (with its default `": "` key separator). -/
def renderEntry (k v : String) : List Char :=
  encodeStr k ++ ':' :: ' ' :: encodeStr v

/-- The items of a serialized JSON object joined by the default `", "`
item separator of `json.dumps`. -/
def renderPairs : List (String × String) → List Char
  | [] => []
  | [(k, v)] => renderEntry k v
  | (k, v) :: p :: rest => renderEntry k v ++ ',' :: ' ' :: renderPairs (p :: rest)

theorem renderPairs_close_inj :
    ∀ (l1 l2 : List (String × String)),
      renderPairs l1 ++ ['\x7d'] = renderPairs l2 ++ ['\x7d'] → l1 = l2
  | [], [], _ => rfl
  | [], [(k2, v2)], h => by
      exfalso
      simp only [renderPairs, renderEntry, encodeStr, List.nil_append,
        List.cons_append, List.append_assoc, List.cons.injEq] at h
      exact absurd h.1 (by decide)
  | [], (k2, v2) :: p2 :: l2, h => by
      exfalso
      simp only [renderPairs, renderEntry, encodeStr, List.nil_append,
        List.cons_append, List.append_assoc, List.cons.injEq] at h
      exact absurd h.1 (by decide)
  | [(k1, v1)], [], h => by
      exfalso
      simp only [renderPairs, renderEntry, encodeStr, List.nil_append,
        List.cons_append, List.append_assoc, List.cons.injEq] at h
      exact absurd h.1 (by decide)
  | (k1, v1) :: p1 :: l1, [], h => by
      exfalso
      simp only [renderPairs, renderEntry, encodeStr, List.nil_append,
        List.cons_append, List.append_assoc, List.cons.injEq] at h
      exact absurd h.1 (by decide)
  | [(k1, v1)], [(k2, v2)], h => by
      simp only [renderPairs, renderEntry, List.append_assoc, List.cons_append] at h
      obtain ⟨hk, h⟩ := encodeStr_append_inj h
      simp only [List.cons.injEq, true_and] at h
      obtain ⟨hv, _⟩ := encodeStr_append_inj h
      rw [hk, hv]
  | [(k1, v1)], (k2, v2) :: p2 :: l2, h => by
      exfalso
      simp only [renderPairs, renderEntry, List.append_assoc, List.cons_append] at h
      obtain ⟨hk, h⟩ := encodeStr_append_inj h
      simp only [List.cons.injEq, true_and] at h
      obtain ⟨_, h⟩ := encodeStr_append_inj h
      simp only [List.cons.injEq] at h
      exact (by decide : ('\x7d' : Char) ≠ ',') h.1
  | (k1, v1) :: p1 :: l1, [(k2, v2)], h => by
      exfalso
      simp only [renderPairs, renderEntry, List.append_assoc, List.cons_append] at h
      obtain ⟨hk, h⟩ := encodeStr_append_inj h
      simp only [List.cons.injEq, true_and] at h
      obtain ⟨_, h⟩ := encodeStr_append_inj h
      simp only [List.cons.injEq] at h
      exact (by decide : (',' : Char) ≠ '\x7d') h.1
  | (k1, v1) :: p1 :: l1, (k2, v2) :: p2 :: l2, h => by
      simp only [renderPairs, renderEntry, List.append_assoc, List.cons_append] at h
      obtain ⟨hk, h⟩ := encodeStr_append_inj h
      simp only [List.cons.injEq, true_and] at h
      obtain ⟨hv, h⟩ := encodeStr_append_inj h
      simp only [List.cons.injEq, true_and] at h
      have := renderPairs_close_inj (p1 :: l1) (p2 :: l2) h
      rw [hk, hv, this]

/-- The key ordering used when serializing a parameter map with
`sort_keys=True`. -/
def keyLE (a b : String × String) : Prop := a.1 ≤ b.1

/-- Strict version of `keyLE`, used to show the sorted order of a
duplicate-free parameter map is unique. -/
def keyLT (a b : String × String) : Prop := a.1 < b.1

instance : DecidableRel keyLE := fun a b => inferInstanceAs (Decidable (a.1 ≤ b.1))

instance : IsTotal (String × String) keyLE := ⟨fun a b => le_total a.1 b.1⟩

instance : IsTrans (String × String) keyLE := ⟨fun _ _ _ h1 h2 => le_trans h1 h2⟩

instance : IsAntisymm (String × String) keyLT :=
  ⟨fun _ _ h1 h2 => absurd h2 (lt_asymm h1)⟩

/-- Sorting a parameter map by key, modelling the `sort_keys=True` option
of `json.dumps` (Python's sort is a stable comparison sort; any sort
agreeing with the key order gives the same result on duplicate-free key
sets, which is all a `dict` can supply). -/
def sortParams (params : List (String × String)) : List (String × String) :=
  List.insertionSort keyLE params

/-- Modelled from the Python standard library:
`json.dumps(params, sort_keys=True)` for a string-valued parameter map —
the key-sorted items rendered inside braces. -/
def jsonDumpsSorted (params : List (String × String)) : String :=
  String.mk ('\x7b' :: renderPairs (sortParams params) ++ ['\x7d'])

/-- From `route_optimizer/cache.py`, `generate_cache_key`: serialize the
parameter map with keys sorted, then hash.  The hash (`hashlib.md5`
hexdigest in the source) is an explicit parameter `md5`: determinism
facts below hold for every instantiation, and key-sensitivity facts
assume the hash is injective, which is the spec's collision-resistance
assumption on the digest. -/
def generate_cache_key (md5 : String → String) (params : List (String × String)) : String :=
  md5 (jsonDumpsSorted params)

theorem sorted_keyLT_of_nodup {l : List (String × String)}
    (hs : l.Sorted keyLE) (hn : (l.map Prod.fst).Nodup) : l.Sorted keyLT := by
  have hpair : l.Pairwise (fun a b => a.1 ≠ b.1) := (List.pairwise_map).mp hn
  exact (hs.and hpair).imp fun h => lt_of_le_of_ne h.1 h.2

theorem sortParams_perm (p : List (String × String)) : (sortParams p).Perm p :=
  List.perm_insertionSort keyLE p

theorem sortParams_eq_of_perm {p1 p2 : List (String × String)}
    (hperm : p1.Perm p2) (hnodup : (p1.map Prod.fst).Nodup) :
    sortParams p1 = sortParams p2 := by
  have hs1 : (sortParams p1).Sorted keyLE := List.sorted_insertionSort keyLE p1
  have hs2 : (sortParams p2).Sorted keyLE := List.sorted_insertionSort keyLE p2
  have hp1 : (sortParams p1).Perm p1 := sortParams_perm p1
  have hp2 : (sortParams p2).Perm p2 := sortParams_perm p2
  have hn1 : ((sortParams p1).map Prod.fst).Nodup :=
    ((hp1.map Prod.fst).nodup_iff).mpr hnodup
  have hn2 : ((sortParams p2).map Prod.fst).Nodup :=
    ((hp2.map Prod.fst).nodup_iff).mpr ((hperm.map Prod.fst).nodup_iff.mp hnodup)
  exact List.eq_of_perm_of_sorted (hp1.trans (hperm.trans hp2.symm))
    (sorted_keyLT_of_nodup hs1 hn1) (sorted_keyLT_of_nodup hs2 hn2)

/-- From `route_optimizer/cache.py`: `CACHE_EXPIRY_DAYS = 30`. -/
def CACHE_EXPIRY_DAYS : Nat := 30

/-- Seconds per day, used to express `timedelta(days=n)` in the
seconds-valued time model. -/
def SECONDS_PER_DAY : Nat := 86400

/-- Python subscription `j[k]` on a parsed JSON value with a string key:
an object yields the value at the key or raises `KeyError`; any other
value raises `TypeError` (as Python does for `list[str]`, `str[str]`,
`int[str]`, ...). -/
def pyGetItem (j : Json) (k : String) : Except PyExc Json :=
  match j with
  | .obj fields =>
      match fields.lookup k with
      | some v => .ok v
      | none => .error .keyError
  | _ => .error .typeError

/-- `datetime.fromisoformat` applied to a JSON value as the cache code
does: a string argument either parses to a time value or raises
`ValueError`; a non-string argument raises `TypeError`. -/
def fromisoformat (j : Json) : Except PyExc Nat :=
  match j with
  | .str s =>
      match isoParse s with
      | some t => .ok t
      | none => .error (.valueError "Invalid isoformat string")
  | _ => .error .typeError

/-- The `try` body of `get_from_cache` in `route_optimizer/cache.py`,
for a cache file that exists: `json.load` the file (raising
`JSONDecodeError` on invalid text), read `cached_data['timestamp']`,
parse it, delete the file and return `None` if
`datetime.now() > cached_time + timedelta(days=CACHE_EXPIRY_DAYS)`,
otherwise return `cached_data['data']`.  The result pairs the returned
value with the file content remaining at the key after the call. -/
def getFromCacheBody (now : Nat) (file : CacheFile) :
    Except PyExc (Option Json × Option CacheFile) := do
  let cached_data ←
    match file with
    | .invalid => Except.error PyExc.jsonDecodeError
    | .valid j => Except.ok j
  let ts ← pyGetItem cached_data "timestamp"
  let cached_time ← fromisoformat ts
  let expiry_time := cached_time + CACHE_EXPIRY_DAYS * SECONDS_PER_DAY
  if expiry_time < now then
    pure (none, none)
  else do
    let d ← pyGetItem cached_data "data"
    pure (some d, some file)

/-- The exceptions named by the `except (json.JSONDecodeError, KeyError,
ValueError)` clause of `get_from_cache` (`JSONDecodeError` is itself a
`ValueError` subclass). -/
def cacheCaught (e : PyExc) : Bool :=
  match e with
  | .jsonDecodeError => true
  | .keyError => true
  | .valueError _ => true
  | _ => false

/-- From `route_optimizer/cache.py`, `get_from_cache`: `None` when no
file exists at the key; otherwise the `try` body above, with caught
exceptions turned into delete-and-return-`None`.  The result pairs the
returned value (`none` modelling Python `None`) with the file content
remaining at the key. -/
def get_from_cache (now : Nat) (file : Option CacheFile) :
    Except PyExc (Option Json × Option CacheFile) :=
  match file with
  | none => .ok (none, none)
  | some f =>
      match getFromCacheBody now f with
      | .ok r => .ok r
      | .error e => if cacheCaught e then .ok (none, none) else .error e

/-- From `route_optimizer/cache.py`, `save_to_cache`: write
`{'timestamp': datetime.now().isoformat(), 'data': data}` to the file at
the key, replacing whatever was there. -/
def save_to_cache (cache_key : String) (data : Json) (now : Nat) (store : Store) : Store :=
  updateStore store cache_key
    (some (.valid (.obj [("timestamp", .str (isoRender now)), ("data", data)])))

/-- The persisted contents on which the cache lookup hits an uncaught
`TypeError`: a valid-JSON payload that is not an object, or an object
whose `timestamp` field holds a non-string. -/
def typeErrorProne (file : Option CacheFile) : Bool :=
  match file with
  | some (.valid j) =>
      match j with
      | .obj fields =>
          match fields.lookup "timestamp" with
          | some (.str _) => false
          | some _ => true
          | none => false
      | _ => true
  | _ => false

/-- One leg of a provider route: `distance.value` (meters) and
`duration.value` (seconds). -/
structure Leg : Type where
  distance : Int
  duration : Int
deriving DecidableEq, Repr

/-- One entry of `routes[]` in a provider response: its legs and, when the
provider returned one, the `waypoint_order` array. -/
structure ProviderRoute : Type where
  legs : List Leg
  waypoint_order : Option (List Nat)
deriving DecidableEq, Repr

/-- One entry of `geocoded_waypoints[]`: the `geocoder_status` field when
present (`.get('geocoder_status', 'UNKNOWN')` supplies the default). -/
structure GeocodedWaypoint : Type where
  geocoder_status : Option String
deriving DecidableEq, Repr

/-- The JSON body the external directions provider answers with, in the
shape `api.py` consumes: top-level `status`, `routes[]`,
`geocoded_waypoints[]` when that key is present, and `error_message` when
that key is present. -/
structure ProviderResponse : Type where
  status : String
  routes : List ProviderRoute
  geocoded_waypoints : Option (List GeocodedWaypoint)
  error_message : Option String
deriving DecidableEq, Repr

/-- Python `waypoints[-1]`: the last element, or `IndexError` on an empty
list. -/
def pyLast (l : List String) : Except PyExc String :=
  match l.getLast? with
  | some x => .ok x
  | none => .error .indexError

/-- Python `waypoints[idx]` for a non-negative index: the element, or
`IndexError` out of bounds. -/
def pyIndex (l : List String) (i : Nat) : Except PyExc String :=
  if h : i < l.length then .ok (l.get ⟨i, h⟩) else .error .indexError

/-- Python `routes[0]`: the first route, or `IndexError` when the
`routes` array is empty. -/
def pyFirstRoute (l : List ProviderRoute) : Except PyExc ProviderRoute :=
  match l with
  | r :: _ => .ok r
  | [] => .error .indexError

/-- Python `'|'.join(waypoints)`. -/
def pipeJoin : List String → String
  | [] => ""
  | [a] => a
  | a :: b :: rest => a ++ "|" ++ pipeJoin (b :: rest)

/-- From `api.py` lines 38-41: the `waypoints` request parameter — the
pipe-joined waypoint list, prefixed by the optimization marker when
`optimize` is requested. -/
def waypointsParam (waypoints : List String) (optimize : Bool) : String :=
  if optimize then "optimize:true|" ++ pipeJoin waypoints else pipeJoin waypoints

/-- From `api.py` lines 44-49: the canonical request parameter map the
cache key is computed from (credentials excluded), given the already
computed `destination = waypoints[-1]`. -/
def cacheParamsOf (origin destination : String) (waypoints : List String)
    (optimize : Bool) : List (String × String) :=
  [("origin", origin), ("destination", destination),
    ("waypoints", waypointsParam waypoints optimize), ("mode", "driving")]

/-- The `for idx in waypoint_order: route_addresses.append(waypoints[idx])`
loop of `api.py` lines 90-91: look up each index in turn, raising
`IndexError` at the first out-of-bounds index. -/
def appendWaypoints (waypoints : List String) : List Nat → Except PyExc (List String)
  | [] => pure []
  | i :: rest => do
      let w ← pyIndex waypoints i
      let ws ← appendWaypoints waypoints rest
      pure (w :: ws)

/-- From `api.py` lines 86-94: assemble the route's address list — origin
first, then the waypoints permuted by `waypoint_order` when that variable
is truthy (Python's `if waypoint_order:` is false both for `None` and for
an empty list), otherwise the waypoints in original order. -/
def buildRouteAddresses (origin : String) (waypoints : List String)
    (waypoint_order : Option (List Nat)) : Except PyExc (List String) :=
  match waypoint_order with
  | some (i :: rest) => do
      let ws ← appendWaypoints waypoints (i :: rest)
      pure (origin :: ws)
  | _ => pure (origin :: waypoints)

/-- The JSON dictionary `result` built in `api.py` lines 96-101. -/
def routeJson (addresses : List String) (distance_m duration_s : Int)
    (waypoint_order : Option (List Nat)) : Json :=
  .obj [("addresses", .arr (addresses.map Json.str)),
    ("distance_m", .num distance_m),
    ("duration_s", .num duration_s),
    ("waypoint_order",
      match waypoint_order with
      | none => .null
      | some l => .arr (l.map fun n => .num (n : Int)))]

/-- From `api.py` lines 116-123: the per-address geocoding-failure lines
appended to the error message (two lines per failed address whose index
is within bounds). -/
def failedLines (all : List String) : List (Nat × GeocodedWaypoint) → List String
  | [] => []
  | (i, gw) :: rest =>
      if i < all.length then
        if gw.geocoder_status.getD "UNKNOWN" ≠ "OK" then
          ("  - Address " ++ toString (i + 1) ++ ": " ++ all.getD i "") ::
            ("    Geocoder Status: " ++ gw.geocoder_status.getD "UNKNOWN") ::
              failedLines all rest
        else failedLines all rest
      else failedLines all rest

/-- From `api.py` lines 127-131: the fallback section listing the input
addresses when the response carries no (nonempty) `geocoded_waypoints`. -/
def inputAddressesSection (origin : String) (waypoints : List String) : String :=
  "\n\nInput addresses:" ++ "\n  - Origin: " ++ origin ++
    String.join ((waypoints.enum).map fun p =>
      "\n  - Waypoint " ++ toString (p.1 + 1) ++ ": " ++ p.2)

/-- From `api.py` lines 111-135: everything the error handler appends
after the base `"Google Maps API error: " + status` message — the
geocoding-failure section (or, when the response carries no nonempty
`geocoded_waypoints`, the input-address listing), then the provider's
diagnostic message when present. -/
def errorMsgExtras (resp : ProviderResponse) (origin : String)
    (waypoints : List String) : String :=
  let addressSection :=
    match resp.geocoded_waypoints with
    | some gws =>
        if gws ≠ [] then
          let fl := failedLines ([origin] ++ waypoints) gws.enum
          if fl ≠ [] then
            "\n\nInvalid or not found addresses:\n" ++ String.intercalate "\n" fl
          else ""
        else inputAddressesSection origin waypoints
    | none => inputAddressesSection origin waypoints
  let apiSection :=
    match resp.error_message with
    | some m => "\n\nAPI Message: " ++ m
    | none => ""
  addressSection ++ apiSection

/-- From `api.py` lines 108-135: the message of the `ValueError` raised on
a non-`"OK"` provider status — the base message naming the provider's
status, followed by the appended sections (Python's successive `+=` on
`error_msg` associates this way). -/
def errorMsg (resp : ProviderResponse) (origin : String) (waypoints : List String) : String :=
  ("Google Maps API error: " ++ resp.status) ++ errorMsgExtras resp origin waypoints

/-- From `route_optimizer/api.py`, `get_route_with_waypoints`.  The
external world is explicit: `md5` is the digest function used by the
cache key, `resp` the body the provider would answer to this request,
`now` the current time, and `store` the cache directory.  The success
value is the returned route dictionary, the cache directory after the
call, and whether the provider was actually called (`false` on a cache
hit). -/
def get_route_with_waypoints (md5 : String → String) (resp : ProviderResponse)
    (now : Nat) (store : Store) (origin : String) (waypoints : List String)
    (optimize : Bool) : Except PyExc (Json × Store × Bool) := do
  let destination ← pyLast waypoints
  let cache_params := cacheParamsOf origin destination waypoints optimize
  let cache_key := generate_cache_key md5 cache_params
  let lookup ← get_from_cache now (store cache_key)
  let store1 := updateStore store cache_key lookup.2
  match lookup.1 with
  | some cached_result => pure (cached_result, store1, false)
  | none =>
      if resp.status = "OK" then do
        let route ← pyFirstRoute resp.routes
        let total_distance_m := route.legs.foldl (fun acc leg => acc + leg.distance) 0
        let total_duration_s := route.legs.foldl (fun acc leg => acc + leg.duration) 0
        let waypoint_order := if optimize then route.waypoint_order else none
        let route_addresses ← buildRouteAddresses origin waypoints waypoint_order
        let result := routeJson route_addresses total_distance_m total_duration_s waypoint_order
        let store2 := save_to_cache cache_key result now store1
        pure (result, store2, true)
      else
        throw (.valueError (errorMsg resp origin waypoints))

/-- From `route_optimizer/api.py`, `optimize_route`: check the credential
(Python's `if not GOOGLE_MAPS_API_KEY:` is true for an unset variable and
for an empty string), check the address count, split the list into origin
and waypoints, and fetch the unoptimized then the optimized route,
threading the cache (`resp1`/`resp2` are the provider's answers to the
two requests). -/
def optimize_route (md5 : String → String) (apiKey : Option String)
    (resp1 resp2 : ProviderResponse) (now : Nat) (store : Store)
    (addresses : List String) : Except PyExc ((Json × Json) × Store) := do
  if apiKey = none ∨ apiKey = some "" then
    throw (.valueError "GOOGLE_MAPS_API_KEY not found. Please set it in .env file")
  else if addresses.length < 2 then
    throw (.valueError "Need at least 2 addresses to optimize route")
  else do
    let origin := addresses.headD ""
    let waypoints := addresses.tail
    let r1 ← get_route_with_waypoints md5 resp1 now store origin waypoints false
    let r2 ← get_route_with_waypoints md5 resp2 now r1.2.1 origin waypoints true
    pure ((r1.1, r2.1), r2.2.1)

/-- From `route_optimizer/utils.py`: `FUEL_CONSUMPTION_L_PER_100KM = 8.5`
(the float literal is the exact rational 17/2). -/
def FUEL_CONSUMPTION_L_PER_100KM : ℚ := 17 / 2

/-- From `route_optimizer/utils.py`: `FUEL_PRICE_EUR_PER_L = 1.50`. -/
def FUEL_PRICE_EUR_PER_L : ℚ := 3 / 2

/-- Python's `f"\x7bn:02d\x7d"`: pad the decimal rendering to at least two
characters with a leading zero (only non-negative single digits are ever
shorter than two characters). -/
def pad2 (n : Int) : String :=
  let s := toString n
  if s.length < 2 then "0" ++ s else s

/-- From `route_optimizer/utils.py`, `format_duration`: `HH:MM` from a
seconds count, via Python's floor division and floor modulo. -/
def format_duration (seconds : Int) : String :=
  let hours := Int.fdiv seconds 3600
  let minutes := Int.fdiv (Int.emod seconds 3600) 60
  pad2 hours ++ ":" ++ pad2 minutes

/-- From `route_optimizer/utils.py`, `calculate_fuel_cost`: fuel cost in
EUR for a distance in meters.  Python float arithmetic is modelled with
exact rationals. -/
def calculate_fuel_cost (distance_m : Int) : ℚ :=
  let distance_km : ℚ := (distance_m : ℚ) / 1000
  let fuel_liters := (distance_km / 100) * FUEL_CONSUMPTION_L_PER_100KM
  fuel_liters * FUEL_PRICE_EUR_PER_L

/-- Python division: raises `ZeroDivisionError` on a zero denominator,
otherwise the exact quotient (float arithmetic modelled with rationals). -/
def pyDiv (a b : ℚ) : Except PyExc ℚ :=
  if b = 0 then .error .zeroDivisionError else .ok (a / b)

/-- The distance-savings percentage computed inline in `main` of
`route_optimizer/main.py` (lines 91-94) and `route_optimizer.py`
(lines 389-392): `distance_saved / (original_distance_m / 1000) * 100`
where `distance_saved = (original_distance_m - optimized_distance_m) /
1000`. -/
def distanceSavedPercent (original_distance_m optimized_distance_m : Int) :
    Except PyExc ℚ := do
  let distance_saved : ℚ :=
    ((original_distance_m : ℚ) - (optimized_distance_m : ℚ)) / 1000
  let q ← pyDiv distance_saved ((original_distance_m : ℚ) / 1000)
  pure (q * 100)

/-- The fuel-cost-savings percentage computed inline in `main`
(`main.py` line 96, `route_optimizer.py` line 394):
`fuel_savings / original_fuel_cost * 100`. -/
def fuelSavedPercent (original_distance_m optimized_distance_m : Int) :
    Except PyExc ℚ := do
  let fuel_savings :=
    calculate_fuel_cost original_distance_m - calculate_fuel_cost optimized_distance_m
  let q ← pyDiv fuel_savings (calculate_fuel_cost original_distance_m)
  pure (q * 100)

namespace Monolithic

/-- From the monolithic `route_optimizer.py` line 22:
`FUEL_CONSUMPTION_L_PER_100KM = 8.5`. -/
def FUEL_CONSUMPTION_L_PER_100KM : ℚ := 17 / 2

/-- From the monolithic `route_optimizer.py` line 23:
`FUEL_PRICE_EUR_PER_L = 1.50`. -/
def FUEL_PRICE_EUR_PER_L : ℚ := 3 / 2

/-- From the monolithic `route_optimizer.py` lines 33-37,
`generate_cache_key`: serialize the parameter map with keys sorted, then
hash (the digest function is the explicit `md5` parameter, exactly as in
the package variant's embedding). -/
def generate_cache_key (md5 : String → String) (params : List (String × String)) : String :=
  md5 (jsonDumpsSorted params)

/-- From the monolithic `route_optimizer.py` lines 204-208,
`format_duration`. -/
def format_duration (seconds : Int) : String :=
  let hours := Int.fdiv seconds 3600
  let minutes := Int.fdiv (Int.emod seconds 3600) 60
  pad2 hours ++ ":" ++ pad2 minutes

/-- From the monolithic `route_optimizer.py` lines 211-216,
`calculate_fuel_cost`. -/
def calculate_fuel_cost (distance_m : Int) : ℚ :=
  let distance_km : ℚ := (distance_m : ℚ) / 1000
  let fuel_liters := (distance_km / 100) * FUEL_CONSUMPTION_L_PER_100KM
  fuel_liters * FUEL_PRICE_EUR_PER_L

end Monolithic

theorem except_bind_ok {ε α β : Type} (a : α) (f : α → Except ε β) :
    ((Except.ok a : Except ε α) >>= f) = f a := rfl

theorem except_bind_err {ε α β : Type} (e : ε) (f : α → Except ε β) :
    ((Except.error e : Except ε α) >>= f) = Except.error e := rfl

theorem except_pure {ε α : Type} (a : α) :
    (pure a : Except ε α) = Except.ok a := rfl

/-- How `get_from_cache` behaves on a well-formed entry as written by
`save_to_cache`: a miss (with deletion) once expired, otherwise a hit that
leaves the entry in place. -/
theorem get_from_cache_entry (now t : Nat) (d : Json) :
    get_from_cache now
        (some (.valid (.obj [("timestamp", .str (isoRender t)), ("data", d)]))) =
      if t + CACHE_EXPIRY_DAYS * SECONDS_PER_DAY < now then Except.ok (none, none)
      else
        Except.ok (some d,
          some (.valid (.obj [("timestamp", .str (isoRender t)), ("data", d)]))) := by
  unfold get_from_cache getFromCacheBody
  simp only [except_bind_ok, except_bind_err, except_pure, pyGetItem, fromisoformat,
    List.lookup, isoParse_isoRender, beq_self_eq_true, if_true]
  by_cases h : t + CACHE_EXPIRY_DAYS * SECONDS_PER_DAY < now
  · simp [h, except_bind_ok]
  · simp [h, except_bind_ok]

/-- Claim C2: cache-key determinism — for every two parameter maps holding
the same key-value pairs (the maps come from Python dicts, so keys are
duplicate-free) and differing only in insertion order, `generate_cache_key`
returns the same key, for every digest function; purity and determinism
are inherent in the embedding (the function has no state). -/
theorem C2_cache_key_determinism (md5 : String → String)
    (p1 p2 : List (String × String)) (hperm : p1.Perm p2)
    (hnodup : (p1.map Prod.fst).Nodup) :
    generate_cache_key md5 p1 = generate_cache_key md5 p2 := by
  unfold generate_cache_key jsonDumpsSorted
  rw [sortParams_eq_of_perm hperm hnodup]

theorem C2_cache_key_determinism_witness :
    ([("origin", "A"), ("mode", "driving")] : List (String × String)).Perm
        [("mode", "driving"), ("origin", "A")] ∧
      generate_cache_key id [("origin", "A"), ("mode", "driving")] =
        generate_cache_key id [("mode", "driving"), ("origin", "A")] :=
  ⟨by decide,
    C2_cache_key_determinism id [("origin", "A"), ("mode", "driving")]
      [("mode", "driving"), ("origin", "A")] (by decide) (by decide)⟩

/-- Claim C10: variant equivalence — the monolithic `route_optimizer.py`
definitions of `generate_cache_key`, `format_duration` and
`calculate_fuel_cost` agree with the package variants in
`route_optimizer/cache.py` and `route_optimizer/utils.py` on every input
(the Python sources are textually identical, so their embeddings coincide
definitionally). -/
theorem C10_variant_equivalence :
    (∀ (md5 : String → String) (params : List (String × String)),
        Monolithic.generate_cache_key md5 params = generate_cache_key md5 params) ∧
      (∀ seconds : Int, Monolithic.format_duration seconds = format_duration seconds) ∧
      (∀ distance_m : Int,
        Monolithic.calculate_fuel_cost distance_m = calculate_fuel_cost distance_m) :=
  ⟨fun _ _ => rfl, fun _ => rfl, fun _ => rfl⟩

/-- Claim C8, counterexample: with a zero original distance, the
savings-percentage computations of `main` raise `ZeroDivisionError`
rather than failing closed. -/
theorem C8_zero_baseline_counterexample :
    distanceSavedPercent 0 0 = Except.error PyExc.zeroDivisionError ∧
      fuelSavedPercent 0 0 = Except.error PyExc.zeroDivisionError := by
  constructor
  · unfold distanceSavedPercent pyDiv
    norm_num
  · unfold fuelSavedPercent pyDiv calculate_fuel_cost
    norm_num

/-- Claim C8, amended: when the original route's distance is zero the
savings-percentage computation raises an (unguarded) `ZeroDivisionError`
— absorbed only by `main`'s blanket `except Exception` handler, which
prints the error and exits — and when it is nonzero the computation
returns the exact quotient; no 0% report and no distinct edge-case error
exists in the code. -/
theorem C8_zero_baseline_amended (orig opt : Int) :
    (orig = 0 → distanceSavedPercent orig opt = Except.error PyExc.zeroDivisionError) ∧
      (orig ≠ 0 → distanceSavedPercent orig opt =
        Except.ok ((((orig : ℚ) - (opt : ℚ)) / 1000) / ((orig : ℚ) / 1000) * 100)) := by
  constructor
  · intro h
    subst h
    unfold distanceSavedPercent pyDiv
    norm_num
  · intro h
    have hne : ((orig : ℚ) / 1000) ≠ 0 := by
      simp [div_eq_zero_iff]
      exact_mod_cast h
    unfold distanceSavedPercent pyDiv
    simp only [if_neg hne, except_bind_ok, except_pure]

theorem C8_zero_baseline_amended_witness :
    distanceSavedPercent 0 5000 = Except.error PyExc.zeroDivisionError ∧
      distanceSavedPercent 15000 12000 = Except.ok 20 := by
  constructor
  · exact (C8_zero_baseline_amended 0 5000).1 rfl
  · have h := (C8_zero_baseline_amended 15000 12000).2 (by norm_num)
    rw [h]
    norm_num

/-- Claim C4: expiry — an entry written with timestamp `t` is treated as
absent by `get_from_cache` and removed from the store exactly when its
age exceeds the TTL of 30 days (in particular at age TTL + 1), and is
returned unchanged while its age is within the TTL. -/
theorem C4_cache_expiry (now t : Nat) (d : Json) :
    (t + CACHE_EXPIRY_DAYS * SECONDS_PER_DAY < now →
      get_from_cache now
          (some (.valid (.obj [("timestamp", .str (isoRender t)), ("data", d)]))) =
        Except.ok (none, none)) ∧
      (now ≤ t + CACHE_EXPIRY_DAYS * SECONDS_PER_DAY →
        get_from_cache now
            (some (.valid (.obj [("timestamp", .str (isoRender t)), ("data", d)]))) =
          Except.ok (some d,
            some (.valid (.obj [("timestamp", .str (isoRender t)), ("data", d)])))) := by
  constructor
  · intro h
    rw [get_from_cache_entry, if_pos h]
  · intro h
    rw [get_from_cache_entry, if_neg (by omega)]

theorem C4_cache_expiry_witness :
    get_from_cache 2592001
        (some (.valid (.obj [("timestamp", .str (isoRender 0)), ("data", .num 5000)]))) =
      Except.ok (none, none) ∧
      get_from_cache 2592000
          (some (.valid (.obj [("timestamp", .str (isoRender 0)), ("data", .num 5000)]))) =
        Except.ok (some (.num 5000),
          some (.valid (.obj [("timestamp", .str (isoRender 0)), ("data", .num 5000)]))) :=
  ⟨(C4_cache_expiry 2592001 0 (.num 5000)).1 (by norm_num [CACHE_EXPIRY_DAYS, SECONDS_PER_DAY]),
    (C4_cache_expiry 2592000 0 (.num 5000)).2 (by norm_num [CACHE_EXPIRY_DAYS, SECONDS_PER_DAY])⟩

/-- Claim C1, counterexample: a persisted entry whose content is valid
JSON but not an object (here the array `[]`) makes `get_from_cache` raise
an uncaught `TypeError` (from `cached_data['timestamp']`), and the corrupt
entry is not deleted — refuting "never raises on a corrupt entry". -/
theorem C1_cache_corruption_counterexample :
    get_from_cache 0 (some (.valid (.arr []))) = Except.error PyExc.typeError := rfl

/-- Every cache lookup either raises `TypeError` (exactly on the
`typeErrorProne` contents) or returns normally. -/
theorem get_from_cache_total (now : Nat) (file : Option CacheFile) :
    (typeErrorProne file = true ∧ get_from_cache now file = Except.error PyExc.typeError) ∨
      (typeErrorProne file = false ∧ ∃ r, get_from_cache now file = Except.ok r) := by
  rcases file with _ | f
  · exact Or.inr ⟨rfl, ⟨(none, none), rfl⟩⟩
  rcases f with _ | j
  · exact Or.inr ⟨rfl, ⟨(none, none), rfl⟩⟩
  rcases j with _ | b | n | s | el | fields
  · exact Or.inl ⟨rfl, rfl⟩
  · exact Or.inl ⟨rfl, rfl⟩
  · exact Or.inl ⟨rfl, rfl⟩
  · exact Or.inl ⟨rfl, rfl⟩
  · exact Or.inl ⟨rfl, rfl⟩
  rcases hlk : fields.lookup "timestamp" with _ | v
  · refine Or.inr ⟨by simp [typeErrorProne, hlk], ⟨(none, none), ?_⟩⟩
    simp [get_from_cache, getFromCacheBody, pyGetItem, hlk, except_bind_ok,
      except_bind_err, cacheCaught]
  rcases v with _ | b | n | s | el | fl
  · exact Or.inl ⟨by simp [typeErrorProne, hlk],
      by simp [get_from_cache, getFromCacheBody, pyGetItem, hlk, fromisoformat,
        except_bind_ok, except_bind_err, cacheCaught]⟩
  · exact Or.inl ⟨by simp [typeErrorProne, hlk],
      by simp [get_from_cache, getFromCacheBody, pyGetItem, hlk, fromisoformat,
        except_bind_ok, except_bind_err, cacheCaught]⟩
  · exact Or.inl ⟨by simp [typeErrorProne, hlk],
      by simp [get_from_cache, getFromCacheBody, pyGetItem, hlk, fromisoformat,
        except_bind_ok, except_bind_err, cacheCaught]⟩
  · refine Or.inr ⟨by simp [typeErrorProne, hlk], ?_⟩
    rcases hp : isoParse s with _ | t
    · refine ⟨(none, none), ?_⟩
      simp [get_from_cache, getFromCacheBody, pyGetItem, hlk, fromisoformat, hp,
        except_bind_ok, except_bind_err, cacheCaught]
    by_cases hexp : t + CACHE_EXPIRY_DAYS * SECONDS_PER_DAY < now
    · refine ⟨(none, none), ?_⟩
      simp [get_from_cache, getFromCacheBody, pyGetItem, hlk, fromisoformat, hp,
        hexp, except_bind_ok, except_bind_err, except_pure, cacheCaught]
    rcases hd : fields.lookup "data" with _ | d
    · refine ⟨(none, none), ?_⟩
      simp [get_from_cache, getFromCacheBody, pyGetItem, hlk, fromisoformat, hp,
        hexp, hd, except_bind_ok, except_bind_err, except_pure, cacheCaught]
    · refine ⟨(some d, some (.valid (.obj fields))), ?_⟩
      simp [get_from_cache, getFromCacheBody, pyGetItem, hlk, fromisoformat, hp,
        hexp, hd, except_bind_ok, except_bind_err, except_pure, cacheCaught]
  · exact Or.inl ⟨by simp [typeErrorProne, hlk],
      by simp [get_from_cache, getFromCacheBody, pyGetItem, hlk, fromisoformat,
        except_bind_ok, except_bind_err, cacheCaught]⟩
  · exact Or.inl ⟨by simp [typeErrorProne, hlk],
      by simp [get_from_cache, getFromCacheBody, pyGetItem, hlk, fromisoformat,
        except_bind_ok, except_bind_err, cacheCaught]⟩

/-- Claim C1, amended: a cache lookup never raises on a missing, expired,
or corrupt entry — except that a persisted payload which is valid JSON
but not an object, or whose `timestamp` field is a non-string, raises an
uncaught `TypeError` (and is not deleted); every other outcome is normal:
any exception raised is that `TypeError` on exactly those contents, any
content not of that shape returns without raising, and any corruption the
`except` clause does catch (undecodable JSON, missing key, unparseable
timestamp string) is treated as absent with the corrupt entry deleted. -/
theorem C1_cache_lookup_amended (now : Nat) (file : Option CacheFile) :
    (∀ e, get_from_cache now file = Except.error e →
        e = PyExc.typeError ∧ typeErrorProne file = true) ∧
      (typeErrorProne file = false → ∃ r, get_from_cache now file = Except.ok r) ∧
      (∀ f e, file = some f → getFromCacheBody now f = Except.error e →
        cacheCaught e = true → get_from_cache now file = Except.ok (none, none)) := by
  refine ⟨?_, ?_, ?_⟩
  · intro e he
    rcases get_from_cache_total now file with ⟨hp, hget⟩ | ⟨hp, r, hget⟩
    · rw [he] at hget
      exact ⟨(Except.error.injEq _ _ ▸ hget), hp⟩
    · rw [he] at hget
      exact absurd hget (by simp)
  · intro hp
    rcases get_from_cache_total now file with ⟨hp2, _⟩ | ⟨_, hr⟩
    · rw [hp] at hp2
      exact absurd hp2 (by simp)
    · exact hr
  · intro f e hf hb hc
    subst hf
    simp [get_from_cache, hb, hc]

theorem C1_cache_lookup_amended_witness :
    get_from_cache 7 (some CacheFile.invalid) = Except.ok (none, none) ∧
      typeErrorProne (some (.valid (.obj [("x", .num 1)]))) = false ∧
      (∃ r, get_from_cache 7 (some (.valid (.obj [("x", .num 1)]))) = Except.ok r) :=
  ⟨(C1_cache_lookup_amended 7 (some CacheFile.invalid)).2.2 CacheFile.invalid
      PyExc.jsonDecodeError rfl rfl rfl,
    rfl,
    (C1_cache_lookup_amended 7 (some (.valid (.obj [("x", .num 1)])))).2.1 rfl⟩

theorem sep_peel {c : Char} :
    ∀ (a1 a2 t1 t2 : List Char), c ∉ a1 → c ∉ a2 →
      a1 ++ c :: t1 = a2 ++ c :: t2 → a1 = a2 ∧ t1 = t2
  | [], [], t1, t2, _, _, h => ⟨rfl, by simpa using h⟩
  | [], x :: a2, t1, t2, _, h2, h => by
      exfalso
      simp only [List.nil_append, List.cons_append, List.cons.injEq] at h
      exact h2 (h.1 ▸ List.mem_cons_self x a2)
  | x :: a1, [], t1, t2, h1, _, h => by
      exfalso
      simp only [List.nil_append, List.cons_append, List.cons.injEq] at h
      exact h1 (h.1 ▸ List.mem_cons_self x a1)
  | x :: a1, y :: a2, t1, t2, h1, h2, h => by
      simp only [List.cons_append, List.cons.injEq] at h
      obtain ⟨ha, ht⟩ := sep_peel a1 a2 t1 t2
        (fun hm => h1 (List.mem_cons_of_mem x hm))
        (fun hm => h2 (List.mem_cons_of_mem y hm)) h.2
      exact ⟨by rw [h.1, ha], ht⟩

theorem pipeJoin_cons (a : String) (l : List String) (hl : l ≠ []) :
    pipeJoin (a :: l) = a ++ "|" ++ pipeJoin l := by
  cases l with
  | nil => exact absurd rfl hl
  | cons b r => rfl

theorem pipeJoin_inj :
    ∀ (l1 l2 : List String), (∀ s ∈ l1, '|' ∉ s.data) → (∀ s ∈ l2, '|' ∉ s.data) →
      l1 ≠ [] → l2 ≠ [] → pipeJoin l1 = pipeJoin l2 → l1 = l2
  | [], _, _, _, hne, _, _ => absurd rfl hne
  | _ :: _, [], _, _, _, hne, _ => absurd rfl hne
  | [a], [b], _, _, _, _, h => by rw [show a = b from h]
  | [a], b :: c :: r, hp1, hp2, _, _, h => by
      exfalso
      have hd := congrArg String.data h
      simp only [pipeJoin, String.data_append] at hd
      apply hp1 a (List.mem_cons_self a [])
      rw [hd]
      simp
  | a :: b :: r, [d], hp1, hp2, _, _, h => by
      exfalso
      have hd := congrArg String.data h
      simp only [pipeJoin, String.data_append] at hd
      apply hp2 d (List.mem_cons_self d [])
      rw [← hd]
      simp
  | a :: b :: r1, d :: e :: r2, hp1, hp2, _, _, h => by
      have hd := congrArg String.data h
      simp only [pipeJoin, String.data_append, List.append_assoc] at hd
      have hd2 : a.data ++ '|' :: (pipeJoin (b :: r1)).data =
          d.data ++ '|' :: (pipeJoin (e :: r2)).data := by
        simpa using hd
      obtain ⟨ha, ht⟩ := sep_peel a.data d.data _ _
        (hp1 a (List.mem_cons_self a _)) (hp2 d (List.mem_cons_self d _)) hd2
      have hrest := pipeJoin_inj (b :: r1) (e :: r2)
        (fun s hs => hp1 s (List.mem_cons_of_mem a hs))
        (fun s hs => hp2 s (List.mem_cons_of_mem d hs))
        (by simp) (by simp) (String.ext ht)
      rw [String.ext ha, hrest]

/-- Waypoint lists on which the pipe-joined request encoding is
unambiguous: nonempty, no address containing the `|` separator, and no
address equal to the literal optimization marker. -/
def goodWaypoints (w : List String) : Prop :=
  w ≠ [] ∧ ∀ s ∈ w, '|' ∉ s.data ∧ s ≠ "optimize:true"

theorem waypointsParam_inj {w1 w2 : List String} {b1 b2 : Bool}
    (h1 : goodWaypoints w1) (h2 : goodWaypoints w2)
    (h : waypointsParam w1 b1 = waypointsParam w2 b2) : w1 = w2 ∧ b1 = b2 := by
  obtain ⟨hne1, hgood1⟩ := h1
  obtain ⟨hne2, hgood2⟩ := h2
  have hpipe1 : ∀ s ∈ w1, '|' ∉ s.data := fun s hs => (hgood1 s hs).1
  have hpipe2 : ∀ s ∈ w2, '|' ∉ s.data := fun s hs => (hgood2 s hs).1
  have hmark : ('|' : Char) ∉ ("optimize:true" : String).data := by decide
  have hsplit : ("optimize:true|" : String) = "optimize:true" ++ "|" := rfl
  cases b1 <;> cases b2 <;> simp only [waypointsParam, Bool.false_eq_true,
    if_false, if_true] at h
  · exact ⟨pipeJoin_inj w1 w2 hpipe1 hpipe2 hne1 hne2 h, rfl⟩
  · exfalso
    have hj : pipeJoin w1 = pipeJoin ("optimize:true" :: w2) := by
      rw [pipeJoin_cons "optimize:true" w2 hne2, h, hsplit]
    have heq := pipeJoin_inj w1 ("optimize:true" :: w2) hpipe1
      (by
        intro s hs
        rcases List.mem_cons.mp hs with rfl | hs2
        · exact hmark
        · exact hpipe2 s hs2)
      hne1 (by simp) hj
    have hmem : ("optimize:true" : String) ∈ w1 := by
      rw [heq]
      exact List.mem_cons_self _ _
    exact (hgood1 _ hmem).2 rfl
  · exfalso
    have hj : pipeJoin w2 = pipeJoin ("optimize:true" :: w1) := by
      rw [pipeJoin_cons "optimize:true" w1 hne1, ← h, hsplit]
    have heq := pipeJoin_inj w2 ("optimize:true" :: w1) hpipe2
      (by
        intro s hs
        rcases List.mem_cons.mp hs with rfl | hs2
        · exact hmark
        · exact hpipe1 s hs2)
      hne2 (by simp) hj
    have hmem : ("optimize:true" : String) ∈ w2 := by
      rw [heq]
      exact List.mem_cons_self _ _
    exact (hgood2 _ hmem).2 rfl
  · have hcancel : pipeJoin w1 = pipeJoin w2 := by
      have hd := congrArg String.data h
      simp only [String.data_append] at hd
      exact String.ext (List.append_cancel_left hd)
    exact ⟨pipeJoin_inj w1 w2 hpipe1 hpipe2 hne1 hne2 hcancel, rfl⟩

theorem sortParams_four (o d w : String) :
    sortParams [("origin", o), ("destination", d), ("waypoints", w), ("mode", "driving")] =
      [("destination", d), ("mode", "driving"), ("origin", o), ("waypoints", w)] := by
  have h1 : ¬ (("waypoints" : String) ≤ "mode") := by
    rw [String.le_iff_toList_le]; decide
  have h2 : (("destination" : String) ≤ "mode") := by
    rw [String.le_iff_toList_le]; decide
  have h3 : ¬ (("origin" : String) ≤ "destination") := by
    rw [String.le_iff_toList_le]; decide
  have h4 : ¬ (("origin" : String) ≤ "mode") := by
    rw [String.le_iff_toList_le]; decide
  have h5 : (("origin" : String) ≤ "waypoints") := by
    rw [String.le_iff_toList_le]; decide
  simp [sortParams, List.insertionSort, List.orderedInsert, keyLE, h1, h2, h3, h4, h5]

/-- The cache key `get_route_with_waypoints` computes for a request
(`api.py` lines 38-50): the digest of the canonical parameter map, with
`destination = waypoints[-1]`. -/
def requestCacheKey (md5 : String → String) (origin : String)
    (waypoints : List String) (optimize : Bool) : String :=
  generate_cache_key md5 (cacheParamsOf origin (waypoints.getLastD "") waypoints optimize)

/-- Claim C3, counterexample: the waypoint sequences `["a", "b", "c"]` and
`["a|b", "c"]` differ, yet produce the identical canonical parameter map
(same pipe-join, same last element), hence the identical cache key for
every digest — `|`-containing addresses make the pipe-joined encoding
ambiguous. -/
theorem C3_key_sensitivity_counterexample :
    cacheParamsOf "O" "c" ["a", "b", "c"] false = cacheParamsOf "O" "c" ["a|b", "c"] false ∧
      requestCacheKey id "O" ["a", "b", "c"] false = requestCacheKey id "O" ["a|b", "c"] false ∧
      (["a", "b", "c"] : List String) ≠ ["a|b", "c"] := by
  refine ⟨by decide, ?_, by decide⟩
  unfold requestCacheKey
  exact congrArg (generate_cache_key id) (by decide)

/-- Claim C3, amended: key sensitivity holds on requests whose waypoint
addresses are pipe-free and distinct from the literal optimization marker
`optimize:true` — for such requests (and an injective digest, the spec's
collision-resistance assumption) equal cache keys force equal origin,
equal waypoint sequence and equal optimize flag, so changing any of
origin, destination (the last waypoint), waypoint sequence, or the
optimize flag changes the key. -/
theorem C3_key_sensitivity_amended (md5 : String → String)
    (hinj : Function.Injective md5)
    (o1 o2 : String) (w1 w2 : List String) (b1 b2 : Bool)
    (h1 : goodWaypoints w1) (h2 : goodWaypoints w2)
    (hkey : requestCacheKey md5 o1 w1 b1 = requestCacheKey md5 o2 w2 b2) :
    o1 = o2 ∧ w1 = w2 ∧ b1 = b2 := by
  unfold requestCacheKey generate_cache_key at hkey
  have hjson := hinj hkey
  unfold jsonDumpsSorted at hjson
  have hlist : '\x7b' :: renderPairs (sortParams
        (cacheParamsOf o1 (w1.getLastD "") w1 b1)) ++ ['\x7d'] =
      '\x7b' :: renderPairs (sortParams
        (cacheParamsOf o2 (w2.getLastD "") w2 b2)) ++ ['\x7d'] :=
    congrArg String.data hjson
  injection hlist with hh hlist2
  have hsorted := renderPairs_close_inj _ _ hlist2
  unfold cacheParamsOf at hsorted
  rw [sortParams_four, sortParams_four] at hsorted
  simp only [List.cons.injEq, Prod.mk.injEq, and_true, true_and] at hsorted
  obtain ⟨hw, hb⟩ := waypointsParam_inj h1 h2 hsorted.2.2
  exact ⟨hsorted.2.1, hw, hb⟩

theorem C3_key_sensitivity_amended_witness :
    ("O" : String) = "O" ∧ (["a"] : List String) = ["a"] ∧ (true = true) :=
  C3_key_sensitivity_amended id (fun _ _ h => h) "O" "O" ["a"] ["a"] true true
    ⟨by decide, by decide⟩ ⟨by decide, by decide⟩ rfl

theorem pyLast_of_ne_nil {l : List String} (h : l ≠ []) :
    pyLast l = Except.ok (l.getLastD "") := by
  cases hl : l.getLast? with
  | none => exact absurd (List.getLast?_eq_none_iff.mp hl) h
  | some x =>
      unfold pyLast
      rw [hl, List.getLastD_eq_getLast?, hl]
      rfl

theorem appendWaypoints_ok (waypoints : List String) :
    ∀ order : List Nat, (∀ i ∈ order, i < waypoints.length) →
      appendWaypoints waypoints order =
        Except.ok (order.map fun i => waypoints.getD i "")
  | [], _ => rfl
  | i :: rest, hb => by
      have hi : i < waypoints.length := hb i (List.mem_cons_self i rest)
      have hrest := appendWaypoints_ok waypoints rest
        (fun j hj => hb j (List.mem_cons_of_mem i hj))
      unfold appendWaypoints pyIndex
      rw [dif_pos hi]
      simp only [except_bind_ok, hrest, except_pure, List.map]
      rw [List.getD_eq_getElem waypoints _ hi]
      simp

/-- Claim C5: permutation invariant — on a cache miss with a success
response carrying a `waypoint_order` that is a permutation of
`0..len(waypoints)-1`, the fetched record's `addresses` are the origin
followed by exactly the waypoints reordered by `waypoint_order`, and the
number of addresses equals the input stop count `1 + len(waypoints)`. -/
theorem C5_permutation_invariant (md5 : String → String) (resp : ProviderResponse)
    (now : Nat) (store : Store) (origin : String) (waypoints : List String)
    (route : ProviderRoute) (rest : List ProviderRoute) (order : List Nat)
    (hne : waypoints ≠ [])
    (hmiss : store (requestCacheKey md5 origin waypoints true) = none)
    (hstatus : resp.status = "OK")
    (hroutes : resp.routes = route :: rest)
    (horder : route.waypoint_order = some order)
    (hperm : order.Perm (List.range waypoints.length)) :
    ∃ store2,
      get_route_with_waypoints md5 resp now store origin waypoints true =
        Except.ok (routeJson (origin :: order.map fun i => waypoints.getD i "")
          (route.legs.foldl (fun acc leg => acc + leg.distance) 0)
          (route.legs.foldl (fun acc leg => acc + leg.duration) 0)
          (some order), store2, true) ∧
      (origin :: order.map fun i => waypoints.getD i "").length = 1 + waypoints.length := by
  have hbound : ∀ i ∈ order, i < waypoints.length := by
    intro i hi
    have := hperm.mem_iff.mp hi
    exact List.mem_range.mp this
  have hlen : order.length = waypoints.length := by
    simpa [List.length_range] using hperm.length_eq
  have hbuild : buildRouteAddresses origin waypoints (some order) =
      Except.ok (origin :: order.map fun i => waypoints.getD i "") := by
    cases order with
    | nil =>
        have : waypoints = [] := List.length_eq_zero.mp (by simpa using hlen.symm)
        exact absurd this hne
    | cons i r =>
        show (do
          let ws ← appendWaypoints waypoints (i :: r)
          pure (origin :: ws) : Except PyExc (List String)) =
            Except.ok (origin :: (i :: r).map fun j => waypoints.getD j "")
        rw [appendWaypoints_ok waypoints (i :: r) hbound]
        rfl
  refine ⟨save_to_cache (requestCacheKey md5 origin waypoints true)
      (routeJson (origin :: order.map fun i => waypoints.getD i "")
        (route.legs.foldl (fun acc leg => acc + leg.distance) 0)
        (route.legs.foldl (fun acc leg => acc + leg.duration) 0)
        (some order)) now
      (updateStore store (requestCacheKey md5 origin waypoints true) none), ?eq, ?len⟩
  case eq =>
    unfold get_route_with_waypoints
    rw [pyLast_of_ne_nil hne]
    simp only [except_bind_ok]
    rw [show generate_cache_key md5
        (cacheParamsOf origin (waypoints.getLastD "") waypoints true) =
      requestCacheKey md5 origin waypoints true from rfl]
    rw [hmiss]
    simp only [get_from_cache, except_bind_ok]
    rw [hstatus]
    simp only [if_pos rfl, hroutes, pyFirstRoute, except_bind_ok, if_pos rfl, horder,
      hbuild, except_pure]
    simp only [if_true, hbuild, except_bind_ok, except_pure]
  case len => simp [hlen]; omega

theorem C5_permutation_invariant_witness :
    ∃ store2,
      get_route_with_waypoints id
          ⟨"OK", [⟨[⟨7000, 500⟩], some [1, 0]⟩], none, none⟩ 0
          emptyStore "O" ["A", "B"] true =
        Except.ok (routeJson ["O", "B", "A"] 7000 500 (some [1, 0]), store2, true) ∧
      (["O", "B", "A"] : List String).length = 1 + (["A", "B"] : List String).length :=
  C5_permutation_invariant id ⟨"OK", [⟨[⟨7000, 500⟩], some [1, 0]⟩], none, none⟩ 0
    emptyStore "O" ["A", "B"] ⟨[⟨7000, 500⟩], some [1, 0]⟩ [] [1, 0]
    (by decide) rfl rfl rfl rfl (by decide)

/-- Claim C6: cache hit skips the provider — for every origin,
destination, optimize flag and time, against a provider answering
status `"OK"` with one leg of 5000 m / 600 s for the two stops, a first
call on an empty cache returns
`{addresses: [origin, dest], distance_m: 5000, duration_s: 600,
waypoint_order: null}` having called the provider, and a second call with
identical parameters returns the identical record from the cache with no
further provider call. -/
theorem C6_cache_hit_skips_provider (md5 : String → String) (origin dest : String)
    (optimize : Bool) (now : Nat) :
    ∃ s1,
      get_route_with_waypoints md5 ⟨"OK", [⟨[⟨5000, 600⟩], none⟩], none, none⟩ now
          emptyStore origin [dest] optimize =
        Except.ok (routeJson [origin, dest] 5000 600 none, s1, true) ∧
      ∃ s2,
        get_route_with_waypoints md5 ⟨"OK", [⟨[⟨5000, 600⟩], none⟩], none, none⟩ now
            s1 origin [dest] optimize =
          Except.ok (routeJson [origin, dest] 5000 600 none, s2, false) := by
  refine ⟨save_to_cache (requestCacheKey md5 origin [dest] optimize)
      (routeJson [origin, dest] 5000 600 none) now
      (updateStore emptyStore (requestCacheKey md5 origin [dest] optimize) none),
    ?eq1,
    updateStore
      (save_to_cache (requestCacheKey md5 origin [dest] optimize)
        (routeJson [origin, dest] 5000 600 none) now
        (updateStore emptyStore (requestCacheKey md5 origin [dest] optimize) none))
      (requestCacheKey md5 origin [dest] optimize)
      (some (.valid (.obj [("timestamp", .str (isoRender now)),
        ("data", routeJson [origin, dest] 5000 600 none)]))),
    ?eq2⟩
  case eq1 =>
    unfold get_route_with_waypoints
    rw [show pyLast [dest] = Except.ok dest from rfl]
    simp only [except_bind_ok]
    rw [show generate_cache_key md5 (cacheParamsOf origin dest [dest] optimize) =
      requestCacheKey md5 origin [dest] optimize from rfl]
    rw [show emptyStore (requestCacheKey md5 origin [dest] optimize) = none from rfl]
    simp only [get_from_cache, except_bind_ok]
    simp only [if_pos rfl, pyFirstRoute, except_bind_ok, ite_self]
    rw [show buildRouteAddresses origin [dest] none = Except.ok [origin, dest] from rfl]
    simp only [except_bind_ok, except_pure]
    rfl
  case eq2 =>
    unfold get_route_with_waypoints
    rw [show pyLast [dest] = Except.ok dest from rfl]
    simp only [except_bind_ok]
    rw [show generate_cache_key md5 (cacheParamsOf origin dest [dest] optimize) =
      requestCacheKey md5 origin [dest] optimize from rfl]
    have hs1 : (save_to_cache (requestCacheKey md5 origin [dest] optimize)
        (routeJson [origin, dest] 5000 600 none) now
        (updateStore emptyStore (requestCacheKey md5 origin [dest] optimize) none))
          (requestCacheKey md5 origin [dest] optimize) =
        some (.valid (.obj [("timestamp", .str (isoRender now)),
          ("data", routeJson [origin, dest] 5000 600 none)])) := by
      simp [save_to_cache, updateStore]
    rw [hs1]
    rw [get_from_cache_entry]
    rw [if_neg (by omega)]
    simp only [except_bind_ok]
    rfl

/-- Claim C7, counterexample: both failure kinds are raised as the same
Python exception type `ValueError` — a missing credential in
`optimize_route` and a provider rejection in `get_route_with_waypoints`
produce errors of the same type, distinguishable only by their message
strings, so a caller cannot tell them apart by the error's type. -/
theorem C7_error_types_counterexample :
    optimize_route id none ⟨"OK", [], none, none⟩ ⟨"OK", [], none, none⟩ 0
        emptyStore ["A", "B"] =
      Except.error (PyExc.valueError
        "GOOGLE_MAPS_API_KEY not found. Please set it in .env file") ∧
      get_route_with_waypoints id ⟨"REQUEST_DENIED", [], none, none⟩ 0
          emptyStore "A" ["B"] false =
        Except.error (PyExc.valueError
          (errorMsg ⟨"REQUEST_DENIED", [], none, none⟩ "A" ["B"])) :=
  ⟨rfl, rfl⟩

/-- Claim C7, amended: `get_route_with_waypoints` fails exactly on a
non-success status (given a cache miss), raising `ValueError` whose
message carries the provider's status string, and `optimize_route` fails
on a missing (or empty) credential raising `ValueError` with the
missing-key message — both failures are the same Python type
`ValueError`, distinguishable by message content but not by type. -/
theorem C7_error_types_amended :
    (∀ (md5 : String → String) (resp : ProviderResponse) (now : Nat) (store : Store)
        (origin : String) (waypoints : List String) (optimize : Bool),
      resp.status ≠ "OK" → waypoints ≠ [] →
      store (requestCacheKey md5 origin waypoints optimize) = none →
      get_route_with_waypoints md5 resp now store origin waypoints optimize =
        Except.error (PyExc.valueError
          (("Google Maps API error: " ++ resp.status) ++
            errorMsgExtras resp origin waypoints))) ∧
      (∀ (md5 : String → String) (apiKey : Option String)
          (resp1 resp2 : ProviderResponse) (now : Nat) (store : Store)
          (addresses : List String),
        apiKey = none ∨ apiKey = some "" →
        optimize_route md5 apiKey resp1 resp2 now store addresses =
          Except.error (PyExc.valueError
            "GOOGLE_MAPS_API_KEY not found. Please set it in .env file")) := by
  constructor
  · intro md5 resp now store origin waypoints optimize hstatus hne hmiss
    unfold get_route_with_waypoints
    rw [pyLast_of_ne_nil hne]
    simp only [except_bind_ok]
    rw [show generate_cache_key md5
        (cacheParamsOf origin (waypoints.getLastD "") waypoints optimize) =
      requestCacheKey md5 origin waypoints optimize from rfl]
    rw [hmiss]
    simp only [get_from_cache, except_bind_ok]
    rw [if_neg hstatus]
    rfl
  · intro md5 apiKey resp1 resp2 now store addresses hkey
    unfold optimize_route
    rw [if_pos hkey]
    rfl

theorem C7_error_types_amended_witness :
    get_route_with_waypoints id ⟨"REQUEST_DENIED", [], none, none⟩ 0
        emptyStore "A" ["B"] false =
      Except.error (PyExc.valueError
        (("Google Maps API error: " ++ "REQUEST_DENIED") ++
          errorMsgExtras ⟨"REQUEST_DENIED", [], none, none⟩ "A" ["B"])) ∧
      optimize_route id (some "") ⟨"OK", [], none, none⟩ ⟨"OK", [], none, none⟩ 0
          emptyStore ["A", "B"] =
        Except.error (PyExc.valueError
          "GOOGLE_MAPS_API_KEY not found. Please set it in .env file") :=
  ⟨C7_error_types_amended.1 id ⟨"REQUEST_DENIED", [], none, none⟩ 0 emptyStore
      "A" ["B"] false (by decide) (by decide) rfl,
    C7_error_types_amended.2 id (some "") ⟨"OK", [], none, none⟩
      ⟨"OK", [], none, none⟩ 0 emptyStore ["A", "B"] (Or.inr rfl)⟩

/-- Claim C9: an empty waypoint list makes `get_route_with_waypoints`
raise an unhandled `IndexError` (from `waypoints[-1]`) regardless of the
cache contents, the provider, or the time — in particular before any
cache read, cache write, or provider call can influence the outcome —
while `optimize_route` rejects inputs of fewer than 2 addresses with a
`ValueError`, so the waypoint list it passes (the tail of its address
list) is always non-empty and the `IndexError` is unreachable through
it. -/
theorem C9_empty_waypoints_precondition :
    (∀ (md5 : String → String) (resp : ProviderResponse) (now : Nat) (store : Store)
        (origin : String) (optimize : Bool),
      get_route_with_waypoints md5 resp now store origin [] optimize =
        Except.error PyExc.indexError) ∧
      (∀ addresses : List String, 2 ≤ addresses.length → addresses.tail ≠ []) ∧
      (∀ (md5 : String → String) (apiKey : Option String)
          (resp1 resp2 : ProviderResponse) (now : Nat) (store : Store)
          (addresses : List String),
        apiKey ≠ none → apiKey ≠ some "" → addresses.length < 2 →
        optimize_route md5 apiKey resp1 resp2 now store addresses =
          Except.error (PyExc.valueError "Need at least 2 addresses to optimize route")) := by
  refine ⟨?_, ?_, ?_⟩
  · intro md5 resp now store origin optimize
    rfl
  · intro addresses hlen
    match addresses, hlen with
    | a :: b :: t, _ => simp
  · intro md5 apiKey resp1 resp2 now store addresses hk1 hk2 hlen
    unfold optimize_route
    rw [if_neg (by simp [hk1, hk2])]
    rw [if_pos hlen]
    rfl

theorem C9_empty_waypoints_precondition_witness :
    get_route_with_waypoints id ⟨"OK", [], none, none⟩ 3 emptyStore "A" [] false =
      Except.error PyExc.indexError ∧
      (["A", "B"] : List String).tail ≠ [] ∧
      optimize_route id (some "k") ⟨"OK", [], none, none⟩ ⟨"OK", [], none, none⟩ 3
          emptyStore ["A"] =
        Except.error (PyExc.valueError "Need at least 2 addresses to optimize route") :=
  ⟨C9_empty_waypoints_precondition.1 id ⟨"OK", [], none, none⟩ 3 emptyStore "A" false,
    C9_empty_waypoints_precondition.2.1 ["A", "B"] (by decide),
    C9_empty_waypoints_precondition.2.2 id (some "k") ⟨"OK", [], none, none⟩
      ⟨"OK", [], none, none⟩ 3 emptyStore ["A"] (by decide) (by decide) (by decide)⟩
